import Mathlib

/-!
Verification of the balance computation and projection engine of the
Family-DashBoard repository (src/script/family_dashboard_onepay.py and
src/scripts/family_dashboard_onepay.py).

Modelling conventions:
* Currency amounts are exact rationals (ℚ); Python `float` decimal literals
  are idealized as the exact decimal they denote.
* Python `round(x, 2)` and the `"%.2f"` format are modelled with round half
  to even on the exact rational, matching CPython's behaviour on exactly
  representable decimals.
* A Python `ValueError` raised by `float(...)` is modelled as
  `Except.error` carrying the interpreter's message text (without the
  quotation marks CPython puts around the offending string).
* String `.strip()`, `.lower()`, `.replace()` are modelled on the
  character list of the string (ASCII case folding, which covers every
  string the program compares against).
-/

/-- One ledger row, as produced by `csv.DictReader` over the header
`date,kind,amount,note`: all four fields are strings. -/
structure Row where
  date : String
  kind : String
  amount : String
  note : String
deriving DecidableEq, Repr

/-- Python `str.strip()` on a character list: drop leading and trailing
whitespace. -/
def pyStrip (cs : List Char) : List Char :=
  ((cs.dropWhile Char.isWhitespace).reverse.dropWhile Char.isWhitespace).reverse

/-- The numeric value of a list of decimal digit characters (most
significant first). -/
def natOfDigits (ds : List Char) : ℕ :=
  ds.foldl (fun n c => 10 * n + (c.toNat - 48)) 0

/-- Exponent part of a Python float literal: optional sign then a nonempty
digit run, nothing after. -/
def parseExpPart : List Char → Option ℤ
  | [] => none
  | '+' :: rest =>
      if rest ≠ [] ∧ rest.all Char.isDigit then some (natOfDigits rest) else none
  | '-' :: rest =>
      if rest ≠ [] ∧ rest.all Char.isDigit then some (-(natOfDigits rest : ℤ)) else none
  | cs =>
      if cs.all Char.isDigit then some (natOfDigits cs) else none

/-- The syntactic pieces of a Python float literal: sign, integer-part
digits, fractional-part digits with their count, and exponent.  The
denoted rational is `partsToRat`. -/
structure FloatParts where
  neg : Bool
  ip : ℕ
  fp : ℕ
  fpLen : ℕ
  exp : ℤ
deriving DecidableEq

/-- Mantissa of a Python float literal: `digits`, `digits.digits`,
`digits.` or `.digits`, with at least one digit.  Returns the digit values
and the unconsumed remainder (a potential exponent part). -/
def parseMantissaParts (cs : List Char) : Option ((ℕ × ℕ × ℕ) × List Char) :=
  let ip := cs.takeWhile Char.isDigit
  let rest := cs.dropWhile Char.isDigit
  match rest with
  | '.' :: rest2 =>
      let fp := rest2.takeWhile Char.isDigit
      let rest3 := rest2.dropWhile Char.isDigit
      if ip.isEmpty && fp.isEmpty then none
      else some ((natOfDigits ip, natOfDigits fp, fp.length), rest3)
  | _ => if ip.isEmpty then none else some ((natOfDigits ip, 0, 0), rest)

/-- Unsigned Python float literal: mantissa with optional `e`/`E` exponent. -/
def parseUnsignedParts (cs : List Char) : Option (ℕ × ℕ × ℕ × ℤ) :=
  match parseMantissaParts cs with
  | none => none
  | some (m, rest) =>
      match rest with
      | [] => some (m.1, m.2.1, m.2.2, 0)
      | 'e' :: ecs => (parseExpPart ecs).map (fun e => (m.1, m.2.1, m.2.2, e))
      | 'E' :: ecs => (parseExpPart ecs).map (fun e => (m.1, m.2.1, m.2.2, e))
      | _ => none

/-- Syntactic analysis of a Python float literal (sign then unsigned
literal).  Kept purely in ℕ/ℤ so that concrete strings evaluate by
`decide`. -/
def parseFloatParts : List Char → Option FloatParts
  | '+' :: rest => (parseUnsignedParts rest).map (fun p => ⟨false, p.1, p.2.1, p.2.2.1, p.2.2.2⟩)
  | '-' :: rest => (parseUnsignedParts rest).map (fun p => ⟨true, p.1, p.2.1, p.2.2.1, p.2.2.2⟩)
  | cs => (parseUnsignedParts cs).map (fun p => ⟨false, p.1, p.2.1, p.2.2.1, p.2.2.2⟩)

/-- The rational denoted by a parsed float literal. -/
def partsToRat (p : FloatParts) : ℚ :=
  (if p.neg then -1 else 1) * ((p.ip : ℚ) + (p.fp : ℚ) / 10 ^ p.fpLen) * 10 ^ p.exp

/-- Embedding of CPython `float(s)` on an already-stripped string, for the
decimal-literal forms the ledger uses (sign, digits, decimal point,
optional exponent); `inf`/`nan`/underscore forms are outside the model.
`none` models `ValueError`. -/
def parseFloat (cs : List Char) : Option ℚ :=
  (parseFloatParts cs).map partsToRat

/-- The cleaned character list `s.replace("$", "").replace(",", "").strip()`
that `parse_amount` hands to `float`. -/
def cleanAmount (s : String) : List Char :=
  pyStrip (s.data.filter (fun c => !(c == '$') && !(c == ',')))

/-- Embedding of `parse_amount` (identical in both source files):
`float(s.replace("$", "").replace(",", "").strip())`, with the
`ValueError` from `float` modelled as `Except.error`. -/
def parse_amount (s : String) : Except String ℚ :=
  match parseFloat (cleanAmount s) with
  | some q => Except.ok q
  | none => Except.error ("could not convert string to float: " ++ String.mk (cleanAmount s))

/-- Round half to even to an integer. -/
def roundHalfEven (q : ℚ) : ℤ :=
  let f := ⌊q⌋
  let r := q - f
  if r < 1 / 2 then f
  else if 1 / 2 < r then f + 1
  else if f % 2 = 0 then f else f + 1

/-- Embedding of Python `round(x, 2)` (round half to even at two decimal
places, exact-decimal idealization). -/
def round2 (q : ℚ) : ℚ :=
  (roundHalfEven (100 * q) : ℚ) / 100

/-- Embedding of the Python format `f"{q:.2f}"`. -/
def fmt2 (q : ℚ) : String :=
  let n := roundHalfEven (100 * q)
  let sign := if n < 0 then "-" else ""
  let m := n.natAbs
  sign ++ toString (m / 100) ++ "." ++ (if m % 100 < 10 then "0" else "") ++ toString (m % 100)

/-- The dispatch key `row["kind"].strip().lower()` computed by both
aggregate loops. -/
def kindOf (r : Row) : String :=
  String.mk ((pyStrip r.kind.data).map Char.toLower)

/-- The `for row in rows` loop of `compute_balances`
(src/script/family_dashboard_onepay.py lines 47-62), with the four
accumulators `onepay_balance, income_total, bills_total, spend_total`
passed explicitly; a `ValueError` from `parse_amount` aborts the whole
computation, as the uncaught exception does in Python. -/
def computeBalancesLoop : List Row → ℚ → ℚ → ℚ → ℚ → Except String (ℚ × ℚ × ℚ × ℚ)
  | [], bal, inc, bil, sp => Except.ok (round2 bal, round2 inc, round2 bil, round2 sp)
  | r :: rest, bal, inc, bil, sp =>
      match parse_amount r.amount with
      | Except.error m => Except.error m
      | Except.ok amt =>
          if kindOf r = "advance" then computeBalancesLoop rest (bal + amt) inc bil sp
          else if kindOf r = "paycheck" then computeBalancesLoop rest (bal - amt) (inc + amt) bil sp
          else if kindOf r = "bill" then computeBalancesLoop rest bal inc (bil + amt) sp
          else if kindOf r = "spend" then computeBalancesLoop rest bal inc bil (sp + amt)
          else computeBalancesLoop rest bal inc bil sp

/-- Embedding of `compute_balances` (src/script/family_dashboard_onepay.py):
returns `(onepay_balance, income_total, bills_total, spend_total)`, each
rounded to two decimals, where `advance` adds to and `paycheck` subtracts
from the balance, and `bill`/`spend` only feed their own totals. -/
def compute_balances (rows : List Row) : Except String (ℚ × ℚ × ℚ × ℚ) :=
  computeBalancesLoop rows 0 0 0 0

/-- The `for row in rows` loop of `compute_net`
(src/scripts/family_dashboard_onepay.py lines 40-59): `paycheck` adds to
the net, while `advance`, `bill` and `spend` all subtract from it. -/
def computeNetLoop : List Row → ℚ → ℚ → ℚ → ℚ → Except String (ℚ × ℚ × ℚ × ℚ)
  | [], net, inc, bil, sp => Except.ok (round2 net, round2 inc, round2 bil, round2 sp)
  | r :: rest, net, inc, bil, sp =>
      match parse_amount r.amount with
      | Except.error m => Except.error m
      | Except.ok amt =>
          if kindOf r = "advance" then computeNetLoop rest (net - amt) inc bil sp
          else if kindOf r = "paycheck" then computeNetLoop rest (net + amt) (inc + amt) bil sp
          else if kindOf r = "bill" then computeNetLoop rest (net - amt) inc (bil + amt) sp
          else if kindOf r = "spend" then computeNetLoop rest (net - amt) inc bil (sp + amt)
          else computeNetLoop rest net inc bil sp

/-- Embedding of `compute_net` (src/scripts/family_dashboard_onepay.py):
returns `(net, income, bills, spend)` rounded to two decimals. -/
def compute_net (rows : List Row) : Except String (ℚ × ℚ × ℚ × ℚ) :=
  computeNetLoop rows 0 0 0 0

/-- Embedding of `status_onepay` (src/script/family_dashboard_onepay.py
lines 64-69). -/
def status_onepay (balance : ℚ) : String :=
  if balance > 0 then "🔴 OnePay behind by $" ++ fmt2 balance
  else if balance = 0 then "🟢 OnePay GREEN ($0 behind)"
  else "🟢 OnePay GREEN with $" ++ fmt2 (abs balance) ++ " buffer"

/-- Embedding of `status_from_net` (src/scripts/family_dashboard_onepay.py
lines 60-63): the other variant, with the opposite sign convention. -/
def status_from_net (net : ℚ) : String :=
  if net < 0 then "🔴 Behind by $" ++ fmt2 (abs net)
  else "🟢 Safe buffer $" ++ fmt2 net

/-- The `while remaining > 0` loop of `paychecks_to_green` with its safety
break `if checks > 200: break`.  The loop body increments `checks` each
iteration and stops as soon as `checks > 200`, so `201 - checks` bounds the
remaining iterations; that measure is carried as explicit fuel (the
function is started with fuel `201`, and the fuel-exhausted branch is
unreachable from that start). -/
def ptgLoop (typical : ℚ) : ℚ → ℕ → ℕ → ℕ × ℚ
  | remaining, checks, 0 => (checks, remaining)
  | remaining, checks, fuel + 1 =>
      if remaining > 0 then
        let remaining' := remaining - typical
        let checks' := checks + 1
        if checks' > 200 then (checks', remaining')
        else ptgLoop typical remaining' checks' fuel
      else (checks, remaining)

/-- Embedding of `paychecks_to_green` (identical in both source files):
no-op on `balance <= 0` or `typical_paycheck <= 0`, otherwise repeated
subtraction with the 200 safety break, final remainder rounded to two
decimals. -/
def paychecks_to_green (balance typical_paycheck : ℚ) : ℕ × ℚ :=
  if balance ≤ 0 then (0, balance)
  else if typical_paycheck ≤ 0 then (0, balance)
  else
    let p := ptgLoop typical_paycheck balance 0 201
    (p.1, round2 p.2)

/-! ## Helper definitions and lemmas for the aggregate engines -/

/-- The parsed amount of a row (0 as a junk value when parsing fails; only
used under a hypothesis that parsing succeeds). -/
def amtOf (r : Row) : ℚ :=
  match parse_amount r.amount with
  | Except.ok q => q
  | Except.error _ => 0

/-- The contribution of a single row to the four accumulators of
`compute_balances`, in order `(balance, income, bills, spend)`. -/
def balancesContrib (r : Row) : ℚ × ℚ × ℚ × ℚ :=
  if kindOf r = "advance" then (amtOf r, 0, 0, 0)
  else if kindOf r = "paycheck" then (-amtOf r, amtOf r, 0, 0)
  else if kindOf r = "bill" then (0, 0, amtOf r, 0)
  else if kindOf r = "spend" then (0, 0, 0, amtOf r)
  else (0, 0, 0, 0)

/-- The contribution of a single row to the four accumulators of
`compute_net`, in order `(net, income, bills, spend)`. -/
def netContrib (r : Row) : ℚ × ℚ × ℚ × ℚ :=
  if kindOf r = "advance" then (-amtOf r, 0, 0, 0)
  else if kindOf r = "paycheck" then (amtOf r, amtOf r, 0, 0)
  else if kindOf r = "bill" then (-amtOf r, 0, amtOf r, 0)
  else if kindOf r = "spend" then (-amtOf r, 0, 0, amtOf r)
  else (0, 0, 0, 0)

/-- Evaluation rule for `parse_amount` on a string whose cleaned form
parses to the literal pieces `p` denoting the rational `q`. -/
theorem parse_amount_ok (s : String) (p : FloatParts) (q : ℚ)
    (h : parseFloatParts (cleanAmount s) = some p) (hq : partsToRat p = q) :
    parse_amount s = Except.ok q := by
  simp only [parse_amount, parseFloat, h, Option.map_some', hq]

/-- When every row's amount parses, `computeBalancesLoop` succeeds and
returns the rounded accumulator-plus-contribution sums. -/
theorem computeBalancesLoop_ok :
    ∀ (rows : List Row), (∀ r ∈ rows, ∃ q, parse_amount r.amount = Except.ok q) →
    ∀ bal inc bil sp : ℚ,
      computeBalancesLoop rows bal inc bil sp =
        Except.ok (round2 (bal + ((rows.map balancesContrib).sum).1),
                   round2 (inc + ((rows.map balancesContrib).sum).2.1),
                   round2 (bil + ((rows.map balancesContrib).sum).2.2.1),
                   round2 (sp + ((rows.map balancesContrib).sum).2.2.2)) := by
  intro rows
  induction rows with
  | nil => intro _ bal inc bil sp; simp [computeBalancesLoop]
  | cons r rest ih =>
      intro h bal inc bil sp
      obtain ⟨q, hq⟩ := h r (List.mem_cons_self r rest)
      have hrest : ∀ x ∈ rest, ∃ p, parse_amount x.amount = Except.ok p :=
        fun x hx => h x (List.mem_cons_of_mem r hx)
      have hamt : amtOf r = q := by simp [amtOf, hq]
      have hc : balancesContrib r =
          (if kindOf r = "advance" then ((q, 0, 0, 0) : ℚ × ℚ × ℚ × ℚ)
           else if kindOf r = "paycheck" then (-q, q, 0, 0)
           else if kindOf r = "bill" then (0, 0, q, 0)
           else if kindOf r = "spend" then (0, 0, 0, q)
           else (0, 0, 0, 0)) := by
        simp only [balancesContrib, hamt]
      simp only [computeBalancesLoop, hq, List.map_cons, List.sum_cons]
      rw [hc]
      split_ifs <;>
        rw [ih hrest] <;>
        simp [Prod.fst_add, Prod.snd_add, add_assoc, sub_eq_add_neg]

/-- When every row's amount parses, `computeNetLoop` succeeds and returns
the rounded accumulator-plus-contribution sums. -/
theorem computeNetLoop_ok :
    ∀ (rows : List Row), (∀ r ∈ rows, ∃ q, parse_amount r.amount = Except.ok q) →
    ∀ net inc bil sp : ℚ,
      computeNetLoop rows net inc bil sp =
        Except.ok (round2 (net + ((rows.map netContrib).sum).1),
                   round2 (inc + ((rows.map netContrib).sum).2.1),
                   round2 (bil + ((rows.map netContrib).sum).2.2.1),
                   round2 (sp + ((rows.map netContrib).sum).2.2.2)) := by
  intro rows
  induction rows with
  | nil => intro _ net inc bil sp; simp [computeNetLoop]
  | cons r rest ih =>
      intro h net inc bil sp
      obtain ⟨q, hq⟩ := h r (List.mem_cons_self r rest)
      have hrest : ∀ x ∈ rest, ∃ p, parse_amount x.amount = Except.ok p :=
        fun x hx => h x (List.mem_cons_of_mem r hx)
      have hamt : amtOf r = q := by simp [amtOf, hq]
      have hc : netContrib r =
          (if kindOf r = "advance" then ((-q, 0, 0, 0) : ℚ × ℚ × ℚ × ℚ)
           else if kindOf r = "paycheck" then (q, q, 0, 0)
           else if kindOf r = "bill" then (-q, 0, q, 0)
           else if kindOf r = "spend" then (-q, 0, 0, q)
           else (0, 0, 0, 0)) := by
        simp only [netContrib, hamt]
      simp only [computeNetLoop, hq, List.map_cons, List.sum_cons]
      rw [hc]
      split_ifs <;>
        rw [ih hrest] <;>
        simp [Prod.fst_add, Prod.snd_add, add_assoc, sub_eq_add_neg]

/-- If some row's amount fails to parse, `computeBalancesLoop` fails. -/
theorem computeBalancesLoop_err :
    ∀ (rows : List Row), (∃ r ∈ rows, ∃ m, parse_amount r.amount = Except.error m) →
    ∀ bal inc bil sp : ℚ, ∃ m, computeBalancesLoop rows bal inc bil sp = Except.error m := by
  intro rows
  induction rows with
  | nil => rintro ⟨r, hr, -⟩; exact absurd hr (List.not_mem_nil r)
  | cons r rest ih =>
      rintro ⟨x, hx, m, hm⟩ bal inc bil sp
      cases hq : parse_amount r.amount with
      | error m' => exact ⟨m', by simp [computeBalancesLoop, hq]⟩
      | ok q =>
          have hxr : x ∈ rest := by
            rcases List.mem_cons.mp hx with h | h
            · exact absurd hm (by rw [h, hq]; intro hc; exact Except.noConfusion hc)
            · exact h
          simp only [computeBalancesLoop, hq]
          split_ifs <;> exact ih ⟨x, hxr, m, hm⟩ _ _ _ _

/-- If some row's amount fails to parse, `computeNetLoop` fails. -/
theorem computeNetLoop_err :
    ∀ (rows : List Row), (∃ r ∈ rows, ∃ m, parse_amount r.amount = Except.error m) →
    ∀ net inc bil sp : ℚ, ∃ m, computeNetLoop rows net inc bil sp = Except.error m := by
  intro rows
  induction rows with
  | nil => rintro ⟨r, hr, -⟩; exact absurd hr (List.not_mem_nil r)
  | cons r rest ih =>
      rintro ⟨x, hx, m, hm⟩ net inc bil sp
      cases hq : parse_amount r.amount with
      | error m' => exact ⟨m', by simp [computeNetLoop, hq]⟩
      | ok q =>
          have hxr : x ∈ rest := by
            rcases List.mem_cons.mp hx with h | h
            · exact absurd hm (by rw [h, hq]; intro hc; exact Except.noConfusion hc)
            · exact h
          simp only [computeNetLoop, hq]
          split_ifs <;> exact ih ⟨x, hxr, m, hm⟩ _ _ _ _

/-- A trailing row with an unrecognized kind and a well-formed amount is a
no-op for `computeBalancesLoop`. -/
theorem computeBalancesLoop_skip (e : Row)
    (h1 : kindOf e ≠ "advance") (h2 : kindOf e ≠ "paycheck")
    (h3 : kindOf e ≠ "bill") (h4 : kindOf e ≠ "spend")
    (hok : ∃ q, parse_amount e.amount = Except.ok q) :
    ∀ (rows : List Row) (bal inc bil sp : ℚ),
      computeBalancesLoop (rows ++ [e]) bal inc bil sp =
        computeBalancesLoop rows bal inc bil sp := by
  intro rows
  induction rows with
  | nil =>
      intro bal inc bil sp
      obtain ⟨q, hq⟩ := hok
      simp only [List.nil_append, computeBalancesLoop, hq]
      rw [if_neg h1, if_neg h2, if_neg h3, if_neg h4]
  | cons r rest ih =>
      intro bal inc bil sp
      simp only [List.cons_append, computeBalancesLoop]
      cases hq : parse_amount r.amount with
      | error m => rfl
      | ok q => split_ifs <;> exact ih _ _ _ _

/-- A trailing row with an unrecognized kind and a well-formed amount is a
no-op for `computeNetLoop`. -/
theorem computeNetLoop_skip (e : Row)
    (h1 : kindOf e ≠ "advance") (h2 : kindOf e ≠ "paycheck")
    (h3 : kindOf e ≠ "bill") (h4 : kindOf e ≠ "spend")
    (hok : ∃ q, parse_amount e.amount = Except.ok q) :
    ∀ (rows : List Row) (net inc bil sp : ℚ),
      computeNetLoop (rows ++ [e]) net inc bil sp =
        computeNetLoop rows net inc bil sp := by
  intro rows
  induction rows with
  | nil =>
      intro net inc bil sp
      obtain ⟨q, hq⟩ := hok
      simp only [List.nil_append, computeNetLoop, hq]
      rw [if_neg h1, if_neg h2, if_neg h3, if_neg h4]
  | cons r rest ih =>
      intro net inc bil sp
      simp only [List.cons_append, computeNetLoop]
      cases hq : parse_amount r.amount with
      | error m => rfl
      | ok q => split_ifs <;> exact ih _ _ _ _

/-- Rows that agree pairwise on `kind` and `amount` drive
`computeBalancesLoop` identically: the loop reads no other field. -/
theorem computeBalancesLoop_ext :
    ∀ (l1 l2 : List Row),
      List.Forall₂ (fun a b => a.kind = b.kind ∧ a.amount = b.amount) l1 l2 →
      ∀ bal inc bil sp : ℚ,
        computeBalancesLoop l1 bal inc bil sp = computeBalancesLoop l2 bal inc bil sp := by
  intro l1 l2 hf
  induction hf with
  | nil => intro bal inc bil sp; rfl
  | @cons a b l1' l2' hab _ ih =>
      intro bal inc bil sp
      obtain ⟨hk, ha⟩ := hab
      have hkind : kindOf a = kindOf b := by unfold kindOf; rw [hk]
      simp only [computeBalancesLoop]
      rw [ha, hkind]
      cases hq : parse_amount b.amount with
      | error m => rfl
      | ok q => split_ifs <;> exact ih _ _ _ _

/-- Rows that agree pairwise on `kind` and `amount` drive `computeNetLoop`
identically. -/
theorem computeNetLoop_ext :
    ∀ (l1 l2 : List Row),
      List.Forall₂ (fun a b => a.kind = b.kind ∧ a.amount = b.amount) l1 l2 →
      ∀ net inc bil sp : ℚ,
        computeNetLoop l1 net inc bil sp = computeNetLoop l2 net inc bil sp := by
  intro l1 l2 hf
  induction hf with
  | nil => intro net inc bil sp; rfl
  | @cons a b l1' l2' hab _ ih =>
      intro net inc bil sp
      obtain ⟨hk, ha⟩ := hab
      have hkind : kindOf a = kindOf b := by unfold kindOf; rw [hk]
      simp only [computeNetLoop]
      rw [ha, hkind]
      cases hq : parse_amount b.amount with
      | error m => rfl
      | ok q => split_ifs <;> exact ih _ _ _ _

/-- The projection loop performs at most `fuel` iterations, each adding one
to `checks`, so the returned count is at most `checks + fuel`. -/
theorem ptgLoop_fst_le (typical : ℚ) :
    ∀ (fuel : ℕ) (remaining : ℚ) (checks : ℕ),
      (ptgLoop typical remaining checks fuel).1 ≤ checks + fuel := by
  intro fuel
  induction fuel with
  | zero => intro remaining checks; simp [ptgLoop]
  | succ n ih =>
      intro remaining checks
      simp only [ptgLoop]
      split_ifs
      · omega
      · exact (ih _ _).trans (by omega)
      · omega

/-! ## Claims -/

/-- C2: the two aggregate implementations disagree: on a single advance of
100, `compute_balances` reports balance +100 while `compute_net` reports
net -100; on a single bill of 90, the bill leaves `compute_balances`'s
balance untouched (0) but is subtracted from `compute_net`'s net (-90), so
the two return different signed balance values. -/
theorem claim2_variant_disagreement :
    compute_balances [⟨"2025-01-01", "advance", "100.00", "onepay"⟩] = Except.ok (100, 0, 0, 0)
  ∧ compute_net [⟨"2025-01-01", "advance", "100.00", "onepay"⟩] = Except.ok (-100, 0, 0, 0)
  ∧ compute_balances [⟨"2025-01-02", "bill", "90.00", "rent"⟩] = Except.ok (0, 0, 90, 0)
  ∧ compute_net [⟨"2025-01-02", "bill", "90.00", "rent"⟩] = Except.ok (-90, 0, 90, 0)
  ∧ compute_balances [⟨"2025-01-01", "advance", "100.00", "onepay"⟩] ≠
      compute_net [⟨"2025-01-01", "advance", "100.00", "onepay"⟩]
  ∧ compute_balances [⟨"2025-01-02", "bill", "90.00", "rent"⟩] ≠
      compute_net [⟨"2025-01-02", "bill", "90.00", "rent"⟩] := by
  have hp100 : parse_amount "100.00" = Except.ok 100 :=
    parse_amount_ok _ ⟨false, 100, 0, 2, 0⟩ _ (by decide) (by norm_num [partsToRat])
  have hp90 : parse_amount "90.00" = Except.ok 90 :=
    parse_amount_ok _ ⟨false, 90, 0, 2, 0⟩ _ (by decide) (by norm_num [partsToRat])
  have hka : kindOf ⟨"2025-01-01", "advance", "100.00", "onepay"⟩ = "advance" := by decide
  have hkb : kindOf ⟨"2025-01-02", "bill", "90.00", "rent"⟩ = "bill" := by decide
  have h1 : compute_balances [⟨"2025-01-01", "advance", "100.00", "onepay"⟩] =
      Except.ok (100, 0, 0, 0) := by
    norm_num [compute_balances, computeBalancesLoop, hp100, hka, round2, roundHalfEven] <;> simp
  have h2 : compute_net [⟨"2025-01-01", "advance", "100.00", "onepay"⟩] =
      Except.ok (-100, 0, 0, 0) := by
    norm_num [compute_net, computeNetLoop, hp100, hka, round2, roundHalfEven] <;> simp
  have h3 : compute_balances [⟨"2025-01-02", "bill", "90.00", "rent"⟩] =
      Except.ok (0, 0, 90, 0) := by
    norm_num [compute_balances, computeBalancesLoop, hp90, hkb, round2, roundHalfEven] <;> simp
  have h4 : compute_net [⟨"2025-01-02", "bill", "90.00", "rent"⟩] =
      Except.ok (-90, 0, 90, 0) := by
    norm_num [compute_net, computeNetLoop, hp90, hkb, round2, roundHalfEven] <;> simp
  refine ⟨h1, h2, h3, h4, by rw [h1, h2]; norm_num, by rw [h3, h4]; norm_num⟩

/-- C3: `status_onepay` (the spec's `classifyStatus`) is total on ℚ and
tripartite: positive balances get the "behind" label carrying the behind
amount, zero gets the "GREEN ($0 behind)" label, and negative balances get
the "GREEN with buffer" label carrying the buffer amount `|balance|`. -/
theorem claim3_status_trichotomy (b : ℚ) :
    (0 < b → status_onepay b = "🔴 OnePay behind by $" ++ fmt2 b)
  ∧ (b = 0 → status_onepay b = "🟢 OnePay GREEN ($0 behind)")
  ∧ (b < 0 → status_onepay b = "🟢 OnePay GREEN with $" ++ fmt2 (abs b) ++ " buffer") := by
  refine ⟨fun h => ?_, fun h => ?_, fun h => ?_⟩
  · unfold status_onepay
    rw [if_pos h]
  · subst h
    rfl
  · unfold status_onepay
    rw [if_neg (not_lt.mpr h.le), if_neg h.ne]

/-- Witness for C3 at balances 5 and -3. -/
theorem claim3_status_trichotomy_instance :
    ((0:ℚ) < 5 ∧ status_onepay 5 = "🔴 OnePay behind by $" ++ fmt2 5)
  ∧ ((-3:ℚ) < 0 ∧ status_onepay (-3) = "🟢 OnePay GREEN with $" ++ fmt2 (abs (-3:ℚ)) ++ " buffer") :=
  ⟨⟨by norm_num, (claim3_status_trichotomy 5).1 (by norm_num)⟩,
   ⟨by norm_num, (claim3_status_trichotomy (-3)).2.2 (by norm_num)⟩⟩

set_option maxRecDepth 8000 in
set_option maxHeartbeats 1000000 in
/-- C4: the projection on balance 650 with typical paycheck 300 makes
exactly three subtractions and ends at remainder -250. -/
theorem claim4_projection_scenario : paychecks_to_green 650 300 = (3, -250) := by
  norm_num [paychecks_to_green, ptgLoop, round2, roundHalfEven]

/-- C5: with a non-positive balance or a non-positive typical paycheck the
projection is a defined no-op returning `(0, balance)`; in particular
`paychecks_to_green 0 5 = (0, 0)` and `paychecks_to_green (-10) 5 = (0, -10)`. -/
theorem claim5_projection_noop :
    (∀ balance typical : ℚ, balance ≤ 0 ∨ typical ≤ 0 →
      paychecks_to_green balance typical = (0, balance))
  ∧ paychecks_to_green 0 5 = (0, 0)
  ∧ paychecks_to_green (-10) 5 = (0, -10) := by
  refine ⟨fun balance typical h => ?_, by norm_num [paychecks_to_green],
    by norm_num [paychecks_to_green]⟩
  unfold paychecks_to_green
  rcases h with h | h
  · rw [if_pos h]
  · by_cases hb : balance ≤ 0
    · rw [if_pos hb]
    · rw [if_neg hb, if_pos h]

/-- Witness for C5 at `(0, 5)`. -/
theorem claim5_projection_noop_instance :
    ((0:ℚ) ≤ 0 ∨ (5:ℚ) ≤ 0) ∧ paychecks_to_green 0 5 = (0, 0) :=
  ⟨Or.inl le_rfl, claim5_projection_noop.1 0 5 (Or.inl le_rfl)⟩

/-- C9: on `[paycheck 1000, advance 300, bill 900, spend 150]` the engine
returns income 1000, bills 900, spend 150; `compute_balances`'s balance is
advances minus paychecks (300 - 1000 = -700) per its documented
convention, while the `compute_net` variant nets everything to -350 with
the same three totals. -/
theorem claim9_aggregate_scenario :
    compute_balances
        [⟨"2025-01-01", "paycheck", "1000.00", ""⟩,
         ⟨"2025-01-02", "advance", "300.00", ""⟩,
         ⟨"2025-01-03", "bill", "900.00", ""⟩,
         ⟨"2025-01-04", "spend", "150.00", ""⟩] = Except.ok (-700, 1000, 900, 150)
  ∧ ((-700 : ℚ) = 300 - 1000)
  ∧ compute_net
        [⟨"2025-01-01", "paycheck", "1000.00", ""⟩,
         ⟨"2025-01-02", "advance", "300.00", ""⟩,
         ⟨"2025-01-03", "bill", "900.00", ""⟩,
         ⟨"2025-01-04", "spend", "150.00", ""⟩] = Except.ok (-350, 1000, 900, 150) := by
  have hp1000 : parse_amount "1000.00" = Except.ok 1000 :=
    parse_amount_ok _ ⟨false, 1000, 0, 2, 0⟩ _ (by decide) (by norm_num [partsToRat])
  have hp300 : parse_amount "300.00" = Except.ok 300 :=
    parse_amount_ok _ ⟨false, 300, 0, 2, 0⟩ _ (by decide) (by norm_num [partsToRat])
  have hp900 : parse_amount "900.00" = Except.ok 900 :=
    parse_amount_ok _ ⟨false, 900, 0, 2, 0⟩ _ (by decide) (by norm_num [partsToRat])
  have hp150 : parse_amount "150.00" = Except.ok 150 :=
    parse_amount_ok _ ⟨false, 150, 0, 2, 0⟩ _ (by decide) (by norm_num [partsToRat])
  have hk1 : kindOf ⟨"2025-01-01", "paycheck", "1000.00", ""⟩ = "paycheck" := by decide
  have hk2 : kindOf ⟨"2025-01-02", "advance", "300.00", ""⟩ = "advance" := by decide
  have hk3 : kindOf ⟨"2025-01-03", "bill", "900.00", ""⟩ = "bill" := by decide
  have hk4 : kindOf ⟨"2025-01-04", "spend", "150.00", ""⟩ = "spend" := by decide
  refine ⟨?_, by norm_num, ?_⟩
  · norm_num [compute_balances, computeBalancesLoop, hp1000, hp300, hp900, hp150,
      hk1, hk2, hk3, hk4, round2, roundHalfEven] <;> simp
  · norm_num [compute_net, computeNetLoop, hp1000, hp300, hp900, hp150,
      hk1, hk2, hk3, hk4, round2, roundHalfEven] <;> simp

set_option maxRecDepth 100000 in
set_option maxHeartbeats 4000000 in
/-- C1 counterexample: with balance 1000 and typical paycheck 1/1000 (both
positive, so inside the claim's domain), the loop's safety break
`if checks > 200: break` fires only after the 201st subtraction, so the
returned count is 201, refuting "at most 200 iterations / count at most
200". -/
theorem claim1_cap_counterexample :
    (0:ℚ) < 1000 ∧ (0:ℚ) < 1/1000 ∧ ¬ (paychecks_to_green 1000 (1/1000)).1 ≤ 200 := by
  refine ⟨by norm_num, by norm_num, ?_⟩
  norm_num [paychecks_to_green, ptgLoop]

/-- C1 (amended): for every positive balance and positive typical paycheck
the projection performs at most 201 subtraction iterations before the
safety break fires, so the returned count is at most 201; when the ceiling
is reached it returns the count-so-far and current remainder instead of
erroring or looping forever. -/
theorem claim1_projection_iteration_bound (balance typical : ℚ)
    (hb : 0 < balance) (ht : 0 < typical) :
    (paychecks_to_green balance typical).1 ≤ 201 := by
  unfold paychecks_to_green
  rw [if_neg (not_le.mpr hb), if_neg (not_le.mpr ht)]
  simpa using ptgLoop_fst_le typical 201 balance 0

/-- Witness for the amended C1 at `(650, 300)`. -/
theorem claim1_projection_iteration_bound_instance :
    (0:ℚ) < 650 ∧ (0:ℚ) < 300 ∧ (paychecks_to_green 650 300).1 ≤ 201 :=
  ⟨by norm_num, by norm_num,
    claim1_projection_iteration_bound 650 300 (by norm_num) (by norm_num)⟩

/-- C6: a row whose amount does not parse (anywhere in the sequence) makes
`compute_balances` fail with the parse error instead of producing any
totals, and the malformed amount `"abc"` indeed fails with the
`ValueError` message naming the offending value. -/
theorem claim6_malformed_amount_error :
    (∀ (l1 l2 : List Row) (e : Row), (∃ m, parse_amount e.amount = Except.error m) →
      ∃ m, compute_balances (l1 ++ e :: l2) = Except.error m)
  ∧ parse_amount "abc" = Except.error "could not convert string to float: abc" := by
  constructor
  · intro l1 l2 e he
    exact computeBalancesLoop_err (l1 ++ e :: l2) ⟨e, by simp, he⟩ 0 0 0 0
  · rfl

/-- Witness for C6 at the single-row ledger `[bill "abc"]`. -/
theorem claim6_malformed_amount_error_instance :
    (∃ m, parse_amount (Row.amount ⟨"2025-01-05", "bill", "abc", "typo"⟩) = Except.error m)
  ∧ ∃ m, compute_balances ([] ++ ⟨"2025-01-05", "bill", "abc", "typo"⟩ :: []) = Except.error m :=
  ⟨⟨"could not convert string to float: abc", rfl⟩,
    claim6_malformed_amount_error.1 [] [] ⟨"2025-01-05", "bill", "abc", "typo"⟩
      ⟨"could not convert string to float: abc", rfl⟩⟩

/-- C7 counterexample: the loop parses the amount before dispatching on
the kind, so appending an entry with the unrecognized kind "gift" but a
malformed amount "abc" to the empty sequence raises a parse error instead
of leaving the aggregates unchanged — the claim's "no error is raised" for
arbitrary unknown-kind entries is false. -/
theorem claim7_unknown_kind_counterexample :
    kindOf ⟨"2025-01-06", "gift", "abc", "note"⟩ = "gift"
  ∧ compute_balances ([] ++ [⟨"2025-01-06", "gift", "abc", "note"⟩]) ≠ compute_balances [] := by
  refine ⟨by decide, ?_⟩
  intro h
  rw [show compute_balances ([] ++ [(⟨"2025-01-06", "gift", "abc", "note"⟩ : Row)]) =
      Except.error "could not convert string to float: abc" from rfl] at h
  rw [show compute_balances ([] : List Row) =
      Except.ok (round2 0, round2 0, round2 0, round2 0) from rfl] at h
  exact Except.noConfusion h

/-- C7 (amended): an entry whose kind is not one of
paycheck/advance/bill/spend and whose amount is well-formed is silently
excluded: appending it to any sequence leaves both aggregate computations
identical and raises no error. -/
theorem claim7_unknown_kind_skipped (rows : List Row) (e : Row)
    (h1 : kindOf e ≠ "paycheck") (h2 : kindOf e ≠ "advance")
    (h3 : kindOf e ≠ "bill") (h4 : kindOf e ≠ "spend")
    (hok : ∃ q, parse_amount e.amount = Except.ok q) :
    compute_balances (rows ++ [e]) = compute_balances rows
  ∧ compute_net (rows ++ [e]) = compute_net rows :=
  ⟨computeBalancesLoop_skip e h2 h1 h3 h4 hok rows 0 0 0 0,
   computeNetLoop_skip e h2 h1 h3 h4 hok rows 0 0 0 0⟩

/-- Witness for the amended C7: appending a well-formed "gift" entry to a
one-advance ledger changes nothing. -/
theorem claim7_unknown_kind_skipped_instance :
    kindOf ⟨"2025-01-07", "gift", "5.00", ""⟩ ≠ "paycheck"
  ∧ kindOf ⟨"2025-01-07", "gift", "5.00", ""⟩ ≠ "advance"
  ∧ kindOf ⟨"2025-01-07", "gift", "5.00", ""⟩ ≠ "bill"
  ∧ kindOf ⟨"2025-01-07", "gift", "5.00", ""⟩ ≠ "spend"
  ∧ (∃ q, parse_amount (Row.amount ⟨"2025-01-07", "gift", "5.00", ""⟩) = Except.ok q)
  ∧ compute_balances
      ([⟨"2025-01-08", "advance", "20.00", ""⟩] ++ [⟨"2025-01-07", "gift", "5.00", ""⟩]) =
      compute_balances [⟨"2025-01-08", "advance", "20.00", ""⟩] := by
  have hok : parse_amount "5.00" = Except.ok 5 :=
    parse_amount_ok _ ⟨false, 5, 0, 2, 0⟩ _ (by decide) (by norm_num [partsToRat])
  refine ⟨by decide, by decide, by decide, by decide, ⟨5, hok⟩, ?_⟩
  exact (claim7_unknown_kind_skipped [⟨"2025-01-08", "advance", "20.00", ""⟩]
    ⟨"2025-01-07", "gift", "5.00", ""⟩
    (by decide) (by decide) (by decide) (by decide) ⟨5, hok⟩).1

/-- C8: both aggregate computations are order-independent: permuting the
entry sequence yields the same aggregate result (and a failed parse fails
for every permutation, so the optional result agrees as well). -/
theorem claim8_permutation_invariance (l1 l2 : List Row) (hp : l1.Perm l2) :
    (compute_balances l1).toOption = (compute_balances l2).toOption
  ∧ (compute_net l1).toOption = (compute_net l2).toOption := by
  by_cases hall : ∀ r ∈ l1, ∃ q, parse_amount r.amount = Except.ok q
  · have hall2 : ∀ r ∈ l2, ∃ q, parse_amount r.amount = Except.ok q :=
      fun r hr => hall r (hp.mem_iff.mpr hr)
    unfold compute_balances compute_net
    rw [computeBalancesLoop_ok l1 hall, computeBalancesLoop_ok l2 hall2,
      computeNetLoop_ok l1 hall, computeNetLoop_ok l2 hall2,
      (hp.map balancesContrib).sum_eq, (hp.map netContrib).sum_eq]
    exact ⟨rfl, rfl⟩
  · push_neg at hall
    obtain ⟨r, hr, hbad⟩ := hall
    have herr : ∃ m, parse_amount r.amount = Except.error m := by
      cases hpa : parse_amount r.amount with
      | ok q => exact absurd hpa (hbad q)
      | error m => exact ⟨m, rfl⟩
    obtain ⟨m1, hm1⟩ := computeBalancesLoop_err l1 ⟨r, hr, herr⟩ 0 0 0 0
    obtain ⟨m2, hm2⟩ := computeBalancesLoop_err l2 ⟨r, hp.mem_iff.mp hr, herr⟩ 0 0 0 0
    obtain ⟨m3, hm3⟩ := computeNetLoop_err l1 ⟨r, hr, herr⟩ 0 0 0 0
    obtain ⟨m4, hm4⟩ := computeNetLoop_err l2 ⟨r, hp.mem_iff.mp hr, herr⟩ 0 0 0 0
    unfold compute_balances compute_net
    rw [hm1, hm2, hm3, hm4]
    exact ⟨rfl, rfl⟩

/-- Witness for C8 on a two-entry ledger and its swap. -/
theorem claim8_permutation_invariance_instance :
    (([⟨"2025-01-01", "advance", "100.00", "a"⟩,
       ⟨"2025-01-02", "paycheck", "100.00", "b"⟩] : List Row).Perm
      ([⟨"2025-01-02", "paycheck", "100.00", "b"⟩,
        ⟨"2025-01-01", "advance", "100.00", "a"⟩] : List Row))
  ∧ (compute_balances
        [⟨"2025-01-01", "advance", "100.00", "a"⟩,
         ⟨"2025-01-02", "paycheck", "100.00", "b"⟩]).toOption =
      (compute_balances
        [⟨"2025-01-02", "paycheck", "100.00", "b"⟩,
         ⟨"2025-01-01", "advance", "100.00", "a"⟩]).toOption :=
  ⟨List.Perm.swap _ _ _, (claim8_permutation_invariance _ _ (List.Perm.swap _ _ _)).1⟩

/-- C10: the aggregate computations read only the `kind` and `amount`
fields: two row sequences agreeing pairwise on those fields (dates and
notes arbitrary) produce identical results in both engines. -/
theorem claim10_kind_amount_only (l1 l2 : List Row)
    (hf : List.Forall₂ (fun a b => a.kind = b.kind ∧ a.amount = b.amount) l1 l2) :
    compute_balances l1 = compute_balances l2 ∧ compute_net l1 = compute_net l2 :=
  ⟨computeBalancesLoop_ext l1 l2 hf 0 0 0 0, computeNetLoop_ext l1 l2 hf 0 0 0 0⟩

/-- Witness for C10: same kind and amount, different date and note. -/
theorem claim10_kind_amount_only_instance :
    List.Forall₂ (fun (a b : Row) => a.kind = b.kind ∧ a.amount = b.amount)
      ([⟨"2025-01-01", "advance", "100.00", "groceries"⟩] : List Row)
      ([⟨"2099-12-31", "advance", "100.00", "different"⟩] : List Row)
  ∧ compute_balances [⟨"2025-01-01", "advance", "100.00", "groceries"⟩] =
      compute_balances [⟨"2099-12-31", "advance", "100.00", "different"⟩] :=
  ⟨List.Forall₂.cons ⟨rfl, rfl⟩ List.Forall₂.nil,
    (claim10_kind_amount_only _ _ (List.Forall₂.cons ⟨rfl, rfl⟩ List.Forall₂.nil)).1⟩
